import Mathlib

/-!
# Verification of the talk2api discovery/execution lifecycle

A shallow embedding of `src/talk2api-main/tools.py`: the module keeps one
process-wide slot (`_execution_agent`, `_execution_agent_tool`,
`_current_tools`) and exposes three entry points
(`discover_and_create_agent`, `call_execution_agent`,
`reset_execution_agent`) glued to external collaborators (the API Hub
search transport, the `APIHubToolset` constructor and its `get_tools`
enumeration, and the delegate runtime).  External behaviour is modelled by
an `Env` record choosing the outcome of each collaborator for one call; the
Python globals become an explicit `AgentState` threaded through the
functions; Python dict results become association lists of JSON-like
values; an exception that an entry point does not catch becomes
`Except.error`.
-/

set_option autoImplicit false
set_option linter.unusedVariables false
set_option linter.unnecessarySeqFocus false

namespace Talk2Api

/-- JSON-like values, for the result dicts the entry points return. -/
inductive Value where
  | null
  | bool (b : Bool)
  | str (s : String)
  | list (xs : List Value)
deriving Repr

/-- A Python dict literal, in construction order. -/
abbrev Dict := List (String × Value)

/-- Dict lookup: first binding of the key wins (keys in the literals are unique). -/
def dget (d : Dict) (key : String) : Option Value :=
  match d with
  | [] => none
  | (k, v) :: rest => if k = key then some v else dget rest key

/-- Configuration read lazily from the environment (tools.py lines 16-40).
An unset variable is the empty string, matching `os.getenv(..., "")`.
`apihub_access_token` is the string `get_apihub_access_token` produces
(that function catches every exception and falls back to
`APIHUB_ACCESS_TOKEN`, so it always yields a string, possibly empty). -/
structure Config where
  apihub_search_url : String
  apikey_credential : String
  apihub_access_token : String
deriving DecidableEq, Repr

def get_apihub_access_token (cfg : Config) : String :=
  cfg.apihub_access_token

def get_apihub_search_url (cfg : Config) : String :=
  cfg.apihub_search_url

def get_apikey_credential (cfg : Config) : String :=
  cfg.apikey_credential

/-- The `AuthCredential(auth_type=AuthCredentialTypes.API_KEY, api_key=...)` object. -/
structure AuthCredential where
  auth_type : String
  api_key : String
deriving DecidableEq, Repr

/-- tools.py lines 42-50. -/
def get_auth_credential (cfg : Config) : Option AuthCredential :=
  let api_key := get_apikey_credential cfg
  if api_key ≠ "" then
    some { auth_type := "API_KEY", api_key := api_key }
  else
    none

/-- One enumerated tool.  `auth_scheme = none` models a tool object without
an `auth_scheme` attribute; `some ""` one whose attribute is falsy. -/
structure Tool where
  name : String
  auth_scheme : Option String
  auth_credential : Option AuthCredential := none
deriving DecidableEq, Repr

/-- In-place mutation `tool.configure_auth_credential(auth_cred)`. -/
def Tool.configure_auth_credential (t : Tool) (cred : AuthCredential) : Tool :=
  { t with auth_credential := some cred }

/-- The guard at tools.py line 229: the tool has a truthy auth_scheme attribute. -/
def Tool.declares_auth (t : Tool) : Bool :=
  match t.auth_scheme with
  | some s => s ≠ ""
  | none => false

/-- The `APIHubToolset` object; `tools` is what its `get_tools` has
produced (empty right after construction, before enumeration). -/
structure APIHubToolset where
  name : String
  description : String
  access_token : String
  apihub_resource_name : String
  tools : List Tool := []
deriving DecidableEq, Repr

/-- The dynamically built execution `LlmAgent` (tools.py lines 235-255). -/
structure LlmAgent where
  model : String
  name : String
  description : String
  instruction : String
  toolsets : List APIHubToolset
deriving DecidableEq, Repr

/-- The `AgentTool(agent=...)` wrapper (tools.py line 258). -/
structure AgentTool where
  agent : LlmAgent
deriving DecidableEq, Repr

/-- The three module-level globals of tools.py (lines 57-59). -/
structure AgentState where
  execution_agent : Option LlmAgent
  execution_agent_tool : Option AgentTool
  current_tools : List String
deriving DecidableEq, Repr

/-- The initial state of the module: every global empty. -/
def emptySlot : AgentState :=
  { execution_agent := none, execution_agent_tool := none, current_tools := [] }

/-- Behaviour of the one `requests.post` in `search_api_hub`:
either the request (or `raise_for_status`) raises a `RequestException`
— caught at lines 166-168 — or it yields a JSON body whose
`searchResults[i].resource.operation.spec` fields are listed here
(`none` models a result with no truthy `spec`... the extraction keeps
`some s` only when `s` is non-empty, matching `if spec:`). -/
inductive SearchTransport where
  | requestError (msg : String)
  | ok (searchResults : List (Option String))
deriving DecidableEq, Repr

/-- Behaviour of the `APIHubToolset(...)` constructor: raise (caught at
tools.py lines 97-99) or succeed. -/
inductive ToolsetCtorOutcome where
  | ctorRaise (msg : String)
  | ctorOk
deriving DecidableEq, Repr

/-- Behaviour of `await toolset.get_tools()` (tools.py line 221):
raise — NOT caught anywhere — or yield the tool list. -/
inductive GetToolsOutcome where
  | raise (msg : String)
  | ok (tools : List Tool)
deriving DecidableEq, Repr

/-- One part of one event from the delegate run: `some s` a part whose
`text` attribute is `s`, `none` a part without a usable `text`. -/
abbrev Part := Option String

/-- One event: `none` when it has no truthy `content` with `parts`,
otherwise the list of parts. -/
abbrev Event := Option (List Part)

/-- Behaviour of the whole `try` body of `call_execution_agent`
(runner/session setup and the `run_async` iteration): raise — caught by
`except Exception` at lines 340-343 — or yield the event stream. -/
inductive RunOutcome where
  | raise (msg : String)
  | events (evs : List Event)
deriving DecidableEq, Repr

/-- The behaviour of every external collaborator during one call. -/
structure Env where
  cfg : Config
  searchTransport : SearchTransport
  toolsetCtor : ToolsetCtorOutcome
  getTools : GetToolsOutcome
  run : RunOutcome
deriving DecidableEq, Repr

/-- tools.py lines 62-82. -/
def reset_execution_agent (st : AgentState) : AgentState × Dict :=
  let old_tools := st.current_tools
  (emptySlot,
   [("success", Value.bool true),
    ("message", Value.str "Execution agent destroyed. Call discover_and_create_agent with a new query."),
    ("previous_tools", Value.list (old_tools.map Value.str))])

/-- tools.py lines 85-99. -/
def create_toolset_from_apihub (env : Env) (apihub_resource_name nm descr : String) :
    Option APIHubToolset :=
  match env.toolsetCtor with
  | .ctorRaise _ => none
  | .ctorOk =>
      some { name := nm
             description := descr
             access_token := get_apihub_access_token env.cfg
             apihub_resource_name := apihub_resource_name
             tools := [] }

/-- tools.py lines 106-168. -/
def search_api_hub (env : Env) (query : String) : Option String :=
  let search_url := get_apihub_search_url env.cfg
  let access_token := get_apihub_access_token env.cfg
  if search_url = "" then none
  else if access_token = "" then none
  else
    match env.searchTransport with
    | .requestError _ => none
    | .ok searchResults =>
        match searchResults with
        | [] => none
        | first_result :: _ =>
            match first_result with
            | some spec => if spec ≠ "" then some spec else none
            | none => none

/-- The instruction text of the execution agent (tools.py lines 239-253),
with `chr(10).join(f"- \x7bname\x7d" ...)` over the tool names. -/
def execution_agent_instruction (tool_names : List String) : String :=
  "You are an API Execution Agent with access to real API tools.\n\n" ++
  "You have ONLY these tools available:\n" ++
  String.intercalate "\n" (tool_names.map (fun nm => "- " ++ nm)) ++
  "\n\nIMPORTANT: If you cannot fulfill the request with your available tools, \n" ++
  "respond with EXACTLY: \"TOOL_NOT_FOUND: <description of what tool is needed>\"\n\n" ++
  "When you CAN fulfill the request:\n" ++
  "1. Identify which tool to use\n" ++
  "2. Call the tool with the correct parameters\n" ++
  "3. Return the result\n\n" ++
  "Be precise with parameter names - use exactly what the tool expects.\n"

/-- The `LlmAgent(...)` literal of tools.py lines 235-255; `toolset` is the
materialized toolset whose tool objects were mutated in place by the auth
loop, so the agent sees the configured tools. -/
def mk_execution_agent (query : String) (tool_names : List String)
    (toolset : APIHubToolset) : LlmAgent :=
  { model := "gemini-2.0-flash"
    name := "api_execution_agent"
    description := "Executes API calls for: " ++ query
    instruction := execution_agent_instruction tool_names
    toolsets := [toolset] }

/-- tools.py lines 175-265.  `Except.error` is an exception propagating to
the caller (only `await toolset.get_tools()` can do that here). -/
def discover_and_create_agent (env : Env) (st : AgentState) (query : String) :
    Except String (AgentState × Dict) :=
  -- Step 0: destroy any existing execution agent
  let st := if st.execution_agent.isSome then emptySlot else st
  -- Step 1: search API Hub
  match search_api_hub env query with
  | none =>
      .ok (st, [("success", Value.bool false),
                ("message", Value.str ("No API found matching: " ++ query))])
  | some apihub_resource_name =>
      -- Step 2: create toolset
      match create_toolset_from_apihub env apihub_resource_name "discovered-api"
              ("API discovered for: " ++ query) with
      | none =>
          .ok (st, [("success", Value.bool false),
                    ("message", Value.str ("Failed to parse API spec for: " ++ query ++
                                           ". The spec may be malformed.")),
                    ("spec", Value.str apihub_resource_name)])
      | some toolset =>
          -- Step 3: get tools and configure auth (the await can raise, uncaught)
          match env.getTools with
          | .raise msg => .error msg
          | .ok tools =>
              let tool_names := tools.map Tool.name
              let st := { st with current_tools := tool_names }
              let tools :=
                match get_auth_credential env.cfg with
                | some auth_cred =>
                    tools.map (fun tool =>
                      if tool.declares_auth then tool.configure_auth_credential auth_cred
                      else tool)
                | none => tools
              -- Steps 4-5: build the agent over the (mutated) toolset, wrap it
              let agent := mk_execution_agent query tool_names { toolset with tools := tools }
              let st := { st with execution_agent := some agent,
                                  execution_agent_tool := some { agent := agent } }
              .ok (st, [("success", Value.bool true),
                        ("message", Value.str ("Created execution agent with " ++
                                               toString tool_names.length ++ " tools")),
                        ("tools", Value.list (tool_names.map Value.str)),
                        ("instruction", Value.str "Now use 'call_execution_agent' to execute API calls")])

/-- Python substring containment, `needle in hay` on strings. -/
def strContains (hay needle : String) : Bool :=
  hay.data.tails.any (fun t => needle.data.isPrefixOf t)

/-- The `final_response` collection loop of tools.py lines 315-325: the
last truthy `part.text` over all events with truthy content/parts. -/
def collect_final_response (events : List Event) : Option String :=
  events.foldl
    (fun acc event =>
      match event with
      | none => acc
      | some parts =>
          parts.foldl
            (fun acc2 part =>
              match part with
              | some text => if text ≠ "" then some text else acc2
              | none => acc2)
            acc)
    none

/-- tools.py lines 268-343.  Never raises: everything after the empty-slot
check sits in a `try`-block whose `except Exception` returns an error dict. -/
def call_execution_agent (env : Env) (st : AgentState) (request : String) :
    AgentState × Dict :=
  match st.execution_agent with
  | none =>
      (st, [("error", Value.str "No execution agent created. Call discover_and_create_agent first.")])
  | some _ =>
      match env.run with
      | .raise msg => (st, [("error", Value.str ("Execution agent failed: " ++ msg))])
      | .events evs =>
          match collect_final_response evs with
          | some final_response =>
              if final_response ≠ "" ∧ strContains final_response "TOOL_NOT_FOUND" = true then
                (st, [("success", Value.bool false),
                      ("tool_not_found", Value.bool true),
                      ("message", Value.str final_response),
                      ("current_tools", Value.list (st.current_tools.map Value.str)),
                      ("instruction", Value.str "Call discover_and_create_agent with a DIFFERENT query.")])
              else
                (st, [("success", Value.bool true), ("result", Value.str final_response)])
          | none =>
              (st, [("success", Value.bool true), ("result", Value.null)])

/-- A coherent slot: when no agent is installed, the companion globals are
empty too.  This holds in every state the module can reach (the only writes
to `_current_tools` and `_execution_agent_tool` happen together with the
agent, or clear all three). -/
def SlotCoherent (st : AgentState) : Prop :=
  st.execution_agent = none → st.execution_agent_tool = none ∧ st.current_tools = []

instance (st : AgentState) : Decidable (SlotCoherent st) := by
  unfold SlotCoherent; infer_instance

/-! ## Supporting lemmas -/

theorem dget_cons_eq (k : String) (v : Value) (rest : Dict) :
    dget ((k, v) :: rest) k = some v := by
  simp [dget]

theorem dget_cons_ne (k key : String) (v : Value) (rest : Dict) (h : k ≠ key) :
    dget ((k, v) :: rest) key = dget rest key := by
  simp [dget, h]

/-- Step 0 of discovery tears the old slot down before anything else, so a
discovery started from a populated slot behaves exactly like one started
from the empty slot. -/
theorem discover_eq_discover_emptySlot (env : Env) (st : AgentState) (q : String)
    (h : st.execution_agent.isSome = true) :
    discover_and_create_agent env st q = discover_and_create_agent env emptySlot q := by
  unfold discover_and_create_agent
  rw [h]
  rfl

/-- A discovery result whose dict says `success: true` comes from the
success branch, hence installs an agent. -/
theorem discover_success_agent_isSome (env : Env) (st : AgentState) (q : String)
    (st' : AgentState) (d : Dict)
    (hok : discover_and_create_agent env st q = .ok (st', d))
    (hs : dget d "success" = some (Value.bool true)) :
    st'.execution_agent.isSome = true := by
  unfold discover_and_create_agent at hok
  by_cases hsome : st.execution_agent.isSome = true <;>
  rcases hsearch : search_api_hub env q with _ | loc <;>
  rcases hgt : env.getTools with msg | tools <;>
  rcases hctor : env.toolsetCtor with msg2 | _ <;>
  simp only [hsome, hsearch, hgt, hctor, create_toolset_from_apihub, if_true, if_false,
    ite_true, ite_false, eq_self_iff_true, not_true, not_false_iff, Bool.not_eq_true,
    Except.ok.injEq, Prod.mk.injEq, reduceCtorEq, reduceIte] at hok <;>
  · obtain ⟨hst, hd⟩ := hok
    first
    | (subst hst; simp)
    | (subst hd; simp [dget] at hs)

/-- The state a successful discovery installs, as a function of the
environment and the query alone. -/
def discover_success_state (env : Env) (q : String) (loc : String) (ts : List Tool) :
    AgentState :=
  let tool_names := ts.map Tool.name
  let tools' :=
    match get_auth_credential env.cfg with
    | some c => ts.map (fun t => if t.declares_auth then t.configure_auth_credential c else t)
    | none => ts
  let agent := mk_execution_agent q tool_names
    { name := "discovered-api"
      description := "API discovered for: " ++ q
      access_token := get_apihub_access_token env.cfg
      apihub_resource_name := loc
      tools := tools' }
  { execution_agent := some agent
    execution_agent_tool := some { agent := agent }
    current_tools := tool_names }

/-- Full characterization of a successful discovery: a `success: true`
dict comes from the success branch, and the new slot is exactly
`discover_success_state` — a function of the environment and query alone,
with no dependence on the prior state. -/
theorem discover_success_eq (env : Env) (st : AgentState) (q : String)
    (st' : AgentState) (d : Dict)
    (hok : discover_and_create_agent env st q = .ok (st', d))
    (hs : dget d "success" = some (Value.bool true)) :
    ∃ loc ts,
      search_api_hub env q = some loc ∧
      env.getTools = .ok ts ∧
      st' = discover_success_state env q loc ts := by
  unfold discover_and_create_agent at hok
  by_cases hsome : st.execution_agent.isSome = true <;>
  rcases hsearch : search_api_hub env q with _ | loc <;>
  rcases hgt : env.getTools with msg | tools <;>
  rcases hctor : env.toolsetCtor with msg2 | _ <;>
  simp only [hsome, hsearch, hgt, hctor, create_toolset_from_apihub, if_true, if_false,
    ite_true, ite_false, eq_self_iff_true, not_true, not_false_iff, Bool.not_eq_true,
    Except.ok.injEq, Prod.mk.injEq, reduceCtorEq, reduceIte] at hok <;>
  · obtain ⟨hst, hd⟩ := hok
    first
    | (exfalso; subst hd; simp [dget] at hs; done)
    | (refine ⟨loc, tools, rfl, rfl, ?_⟩
       subst hst
       rfl)

/-- The slot is never mutated by `call_execution_agent`. -/
theorem call_execution_agent_fst (env : Env) (st : AgentState) (request : String) :
    (call_execution_agent env st request).1 = st := by
  unfold call_execution_agent
  rcases hA : st.execution_agent with _ | a <;> simp only [hA] <;> try rfl
  rcases hR : env.run with m | evs <;> simp only [hR] <;> try rfl
  rcases hC : collect_final_response evs with _ | r <;> simp only [hC] <;> try rfl
  by_cases hneg : (r ≠ "" ∧ strContains r "TOOL_NOT_FOUND" = true) <;> simp [hneg]

/-! ## Claims -/

/-- C5: whenever no successful discovery has installed an execution agent,
`call_execution_agent` returns the fixed error dict immediately, and the
result does not depend on any external collaborator (no network call, no
delegate run). -/
theorem call_without_agent_immediate_error (env : Env) (st : AgentState) (request : String)
    (h : st.execution_agent = none) :
    call_execution_agent env st request =
      (st, [("error", Value.str "No execution agent created. Call discover_and_create_agent first.")]) ∧
    ∀ env2 : Env, call_execution_agent env2 st request = call_execution_agent env st request := by
  constructor
  · unfold call_execution_agent
    simp only [h]
  · intro env2
    unfold call_execution_agent
    simp only [h]

theorem call_without_agent_immediate_error_witness :
    call_execution_agent
      { cfg := { apihub_search_url := "u", apikey_credential := "k", apihub_access_token := "t" }
        searchTransport := .ok [some "s"], toolsetCtor := .ctorOk, getTools := .ok []
        run := .events [some [some "run happened"]] }
      emptySlot "get customer 123" =
      (emptySlot,
       [("error", Value.str "No execution agent created. Call discover_and_create_agent first.")]) :=
  (call_without_agent_immediate_error _ emptySlot "get customer 123" rfl).1

/-- C6: `reset_execution_agent` on an empty slot is a no-op that still
succeeds and reports an empty prior set, so for every starting state the
second of two consecutive resets returns `success: true` with
`previous_tools = []` and leaves the slot empty. -/
theorem reset_twice_reports_empty (st : AgentState) :
    reset_execution_agent (reset_execution_agent st).1 =
      (emptySlot,
       [("success", Value.bool true),
        ("message", Value.str "Execution agent destroyed. Call discover_and_create_agent with a new query."),
        ("previous_tools", Value.list [])]) ∧
    (reset_execution_agent (reset_execution_agent st).1).1 = (reset_execution_agent st).1 := ⟨rfl, rfl⟩

/-- C8: `search_api_hub` yields `none` (it never raises: the transport
error is caught) when the search endpoint is unconfigured, when no access
token could be obtained, when the transport request fails, and when the
catalog yields zero matches — all four surface identically as no locator. -/
theorem search_failures_return_none (env : Env) (query : String)
    (h : get_apihub_search_url env.cfg = "" ∨
         get_apihub_access_token env.cfg = "" ∨
         (∃ m, env.searchTransport = .requestError m) ∨
         env.searchTransport = .ok []) :
    search_api_hub env query = none := by
  unfold search_api_hub get_apihub_search_url get_apihub_access_token at *
  rcases h with h | h | ⟨m, h⟩ | h
  · simp [h]
  · simp [h]
  · by_cases h1 : env.cfg.apihub_search_url = "" <;>
    by_cases h2 : env.cfg.apihub_access_token = "" <;> simp [h, h1, h2]
  · by_cases h1 : env.cfg.apihub_search_url = "" <;>
    by_cases h2 : env.cfg.apihub_access_token = "" <;> simp [h, h1, h2]

theorem search_failures_return_none_witness :
    search_api_hub
      { cfg := { apihub_search_url := "", apikey_credential := "k", apihub_access_token := "t" }
        searchTransport := .ok [some "projects/p/spec"], toolsetCtor := .ctorOk
        getTools := .ok [], run := .events [] }
      "payments" = none :=
  search_failures_return_none _ "payments" (Or.inl rfl)

/-- C10: with an agent installed, a delegate run that completes without
producing any text content is reported as `success: true` with a null
result — not as `tool_not_found` and not as an error. -/
theorem empty_output_success_null (env : Env) (st : AgentState) (request : String)
    (a : LlmAgent) (ha : st.execution_agent = some a)
    (evs : List Event) (hrun : env.run = .events evs)
    (hnone : collect_final_response evs = none) :
    (call_execution_agent env st request).2 =
      [("success", Value.bool true), ("result", Value.null)] := by
  unfold call_execution_agent
  simp only [ha, hrun, hnone]

theorem empty_output_success_null_witness :
    (call_execution_agent
      { cfg := { apihub_search_url := "u", apikey_credential := "", apihub_access_token := "t" }
        searchTransport := .ok [], toolsetCtor := .ctorOk, getTools := .ok []
        run := .events [none, some [none, some ""]] }
      { execution_agent := some (mk_execution_agent "orders" []
          { name := "discovered-api", description := "API discovered for: orders"
            access_token := "t", apihub_resource_name := "projects/p/spec", tools := [] })
        execution_agent_tool := none, current_tools := [] }
      "get order 456").2 =
      [("success", Value.bool true), ("result", Value.null)] :=
  empty_output_success_null _ _ "get order 456" _ rfl [none, some [none, some ""]] rfl rfl

/-- C1: whenever `discover_and_create_agent` returns `success: false`
(no locator, or toolset construction failed), the slot is empty afterwards
— whether or not a capability set was current before the call (the slot is
always coherent: the companion globals are only written together with the
agent). -/
theorem discover_failure_empties_slot (env : Env) (st : AgentState) (q : String)
    (hco : SlotCoherent st) (st' : AgentState) (d : Dict)
    (hok : discover_and_create_agent env st q = .ok (st', d))
    (hfail : dget d "success" = some (Value.bool false)) :
    st'.execution_agent = none ∧ st'.execution_agent_tool = none ∧ st'.current_tools = [] := by
  unfold discover_and_create_agent at hok
  by_cases hsome : st.execution_agent.isSome = true <;>
  rcases hsearch : search_api_hub env q with _ | loc <;>
  rcases hgt : env.getTools with msg | tools <;>
  rcases hctor : env.toolsetCtor with msg2 | _ <;>
  simp only [hsome, hsearch, hgt, hctor, create_toolset_from_apihub, if_true, if_false,
    ite_true, ite_false, eq_self_iff_true, not_true, not_false_iff, Bool.not_eq_true,
    Except.ok.injEq, Prod.mk.injEq, reduceCtorEq, reduceIte] at hok <;>
  · obtain ⟨hst, hd⟩ := hok
    first
    | (exfalso; subst hd; simp [dget] at hfail; done)
    | (subst hst; exact ⟨rfl, rfl, rfl⟩)
    | (subst hst
       have hnone : st.execution_agent = none := Option.not_isSome_iff_eq_none.mp hsome
       exact ⟨hnone, (hco hnone).1, (hco hnone).2⟩)

def envNoResult : Env :=
  { cfg := { apihub_search_url := "u", apikey_credential := "", apihub_access_token := "t" }
    searchTransport := .ok [], toolsetCtor := .ctorOk, getTools := .ok [], run := .events [] }

def stPopulated : AgentState :=
  { execution_agent := some { model := "m", name := "n", description := "d",
                              instruction := "i", toolsets := [] }
    execution_agent_tool := some { agent := { model := "m", name := "n", description := "d",
                                              instruction := "i", toolsets := [] } }
    current_tools := ["get_customer_by_id"] }

theorem discover_failure_empties_slot_witness :
    SlotCoherent stPopulated ∧
    ∃ st' d,
      discover_and_create_agent envNoResult stPopulated "shipping" = .ok (st', d) ∧
      dget d "success" = some (Value.bool false) ∧
      st'.execution_agent = none ∧ st'.execution_agent_tool = none ∧ st'.current_tools = [] := by
  refine ⟨by decide, emptySlot,
    [("success", Value.bool false), ("message", Value.str "No API found matching: shipping")],
    rfl, rfl, ?_⟩
  exact discover_failure_empties_slot envNoResult stPopulated "shipping" (by decide) emptySlot
    [("success", Value.bool false), ("message", Value.str "No API found matching: shipping")] rfl rfl

/-- C7: for every locator whose toolset construction fails, discovery
returns a `success: false` dict with the "spec malformed" message and a
`spec` field carrying the original locator — distinguishable from the
no-search-result failure, whose dict has no `spec` key — and hence never a
success with an empty operation set. -/
theorem materialization_failure_distinct (env : Env) (st : AgentState) (q loc msg : String)
    (hsearch : search_api_hub env q = some loc)
    (hctor : env.toolsetCtor = .ctorRaise msg) :
    ∃ st' : AgentState,
      discover_and_create_agent env st q =
        .ok (st', [("success", Value.bool false),
                   ("message", Value.str ("Failed to parse API spec for: " ++ q ++
                                          ". The spec may be malformed.")),
                   ("spec", Value.str loc)]) ∧
      dget [("success", Value.bool false),
            ("message", Value.str ("Failed to parse API spec for: " ++ q ++
                                   ". The spec may be malformed.")),
            ("spec", Value.str loc)] "success" = some (Value.bool false) ∧
      dget [("success", Value.bool false),
            ("message", Value.str ("Failed to parse API spec for: " ++ q ++
                                   ". The spec may be malformed.")),
            ("spec", Value.str loc)] "spec" = some (Value.str loc) ∧
      dget [("success", Value.bool false),
            ("message", Value.str ("No API found matching: " ++ q))] "spec" = none := by
  unfold discover_and_create_agent
  by_cases hsome : st.execution_agent.isSome = true <;>
  simp only [hsome, hsearch, hctor, create_toolset_from_apihub, if_true, if_false,
    ite_true, ite_false] <;>
  exact ⟨_, rfl, rfl, rfl, rfl⟩

def envBadSpec : Env :=
  { cfg := { apihub_search_url := "u", apikey_credential := "", apihub_access_token := "t" }
    searchTransport := .ok [some "projects/p/locations/l/apis/a/versions/v/specs/s"]
    toolsetCtor := .ctorRaise "bad yaml", getTools := .ok [], run := .events [] }

theorem materialization_failure_distinct_witness :
    ∃ st' : AgentState,
      discover_and_create_agent envBadSpec emptySlot "orders" =
        .ok (st', [("success", Value.bool false),
                   ("message", Value.str "Failed to parse API spec for: orders. The spec may be malformed."),
                   ("spec", Value.str "projects/p/locations/l/apis/a/versions/v/specs/s")]) := by
  obtain ⟨st', h, -, -, -⟩ :=
    materialization_failure_distinct envBadSpec emptySlot "orders"
      "projects/p/locations/l/apis/a/versions/v/specs/s" "bad yaml" rfl rfl
  exact ⟨st', h⟩

/-- C2: with an agent installed, a delegate response string is classified
as a negative result (`success: false`, `tool_not_found: true`) exactly
when it contains the substring "TOOL_NOT_FOUND" anywhere. -/
theorem tool_not_found_iff_sentinel (env : Env) (st : AgentState) (request : String)
    (a : LlmAgent) (ha : st.execution_agent = some a)
    (evs : List Event) (hrun : env.run = .events evs)
    (r : String) (hr : collect_final_response evs = some r) :
    (dget (call_execution_agent env st request).2 "tool_not_found" = some (Value.bool true) ∧
     dget (call_execution_agent env st request).2 "success" = some (Value.bool false)) ↔
    strContains r "TOOL_NOT_FOUND" = true := by
  unfold call_execution_agent
  simp only [ha, hrun, hr]
  by_cases hneg : (r ≠ "" ∧ strContains r "TOOL_NOT_FOUND" = true)
  · rw [if_pos hneg]
    exact ⟨fun _ => hneg.2, fun _ => ⟨rfl, rfl⟩⟩
  · rw [if_neg hneg]
    constructor
    · rintro ⟨h1, -⟩
      exact absurd h1 (by simp [dget])
    · intro hcontains
      exfalso
      apply hneg
      refine ⟨?_, hcontains⟩
      intro hre
      subst hre
      exact absurd hcontains (by decide)

theorem tool_not_found_iff_sentinel_witness :
    dget (call_execution_agent
      { cfg := { apihub_search_url := "u", apikey_credential := "", apihub_access_token := "t" }
        searchTransport := .ok [], toolsetCtor := .ctorOk, getTools := .ok []
        run := .events [some [some "Sorry, TOOL_NOT_FOUND: need a shipping API"]] }
      { execution_agent := some { model := "m", name := "n", description := "d",
                                  instruction := "i", toolsets := [] }
        execution_agent_tool := none, current_tools := [] }
      "ship it").2 "tool_not_found" = some (Value.bool true) ∧
    dget (call_execution_agent
      { cfg := { apihub_search_url := "u", apikey_credential := "", apihub_access_token := "t" }
        searchTransport := .ok [], toolsetCtor := .ctorOk, getTools := .ok []
        run := .events [some [some "Sorry, TOOL_NOT_FOUND: need a shipping API"]] }
      { execution_agent := some { model := "m", name := "n", description := "d",
                                  instruction := "i", toolsets := [] }
        execution_agent_tool := none, current_tools := [] }
      "ship it").2 "success" = some (Value.bool false) :=
  (tool_not_found_iff_sentinel _ _ "ship it" _ rfl
      [some [some "Sorry, TOOL_NOT_FOUND: need a shipping API"]] rfl
      "Sorry, TOOL_NOT_FOUND: need a shipping API" rfl).mpr (by decide)

def envEnumRaise : Env :=
  { cfg := { apihub_search_url := "u", apikey_credential := "", apihub_access_token := "t" }
    searchTransport := .ok [some "projects/p/spec"], toolsetCtor := .ctorOk
    getTools := .raise "enumeration failed", run := .events [] }

/-- C3 counterexample: the claim that no entry point ever propagates an
exception is false — when the search and the toolset constructor succeed
but tool enumeration (`await toolset.get_tools()`, tools.py line 221, not
inside any try/except) raises, `discover_and_create_agent` propagates the
exception instead of returning a dict. -/
theorem discover_propagates_enumeration_exception :
    discover_and_create_agent envEnumRaise emptySlot "orders" = .error "enumeration failed" :=
  rfl

/-- C3 (amended): `call_execution_agent` and `reset_execution_agent`
always return a structured dict, for every behaviour of the collaborators;
`discover_and_create_agent` does too, provided tool enumeration does not
raise (search-transport failures and toolset-construction failures are
caught, but a `get_tools` exception propagates). -/
theorem entry_points_structured_results (env : Env) (st : AgentState) (q request : String)
    (ts : List Tool) (henum : env.getTools = .ok ts) :
    (∃ st' d, discover_and_create_agent env st q = .ok (st', d)) ∧
    (∃ st' d, call_execution_agent env st request = (st', d)) ∧
    (∃ st' d, reset_execution_agent st = (st', d)) := by
  refine ⟨?_, ⟨_, _, rfl⟩, ⟨_, _, rfl⟩⟩
  unfold discover_and_create_agent
  by_cases hsome : st.execution_agent.isSome = true <;>
  rcases hsearch : search_api_hub env q with _ | loc <;>
  rcases hctor : env.toolsetCtor with msg2 | _ <;>
  simp only [hsome, hsearch, hctor, henum, create_toolset_from_apihub, if_true, if_false,
    ite_true, ite_false] <;>
  exact ⟨_, _, rfl⟩

def envAllOK : Env :=
  { cfg := { apihub_search_url := "u", apikey_credential := "", apihub_access_token := "t" }
    searchTransport := .ok [some "projects/p/spec"], toolsetCtor := .ctorOk
    getTools := .ok [], run := .events [] }

theorem entry_points_structured_results_witness :
    (∃ st' d, discover_and_create_agent envAllOK emptySlot "orders" = .ok (st', d)) ∧
    (∃ st' d, call_execution_agent envAllOK emptySlot "get order 456" = (st', d)) ∧
    (∃ st' d, reset_execution_agent emptySlot = (st', d)) :=
  entry_points_structured_results envAllOK emptySlot "orders" "get order 456" [] rfl

def toolsCustomers : List Tool :=
  [{ name := "get_customer_by_id", auth_scheme := none }]

def toolsOrders : List Tool :=
  [{ name := "get_order_by_id", auth_scheme := none }]

def envCustomers : Env :=
  { cfg := { apihub_search_url := "u", apikey_credential := "", apihub_access_token := "t" }
    searchTransport := .ok [some "projects/p/specA"], toolsetCtor := .ctorOk
    getTools := .ok toolsCustomers, run := .events [] }

def envOrders : Env :=
  { cfg := { apihub_search_url := "u", apikey_credential := "", apihub_access_token := "t" }
    searchTransport := .ok [some "projects/p/specB"], toolsetCtor := .ctorOk
    getTools := .ok toolsOrders, run := .events [] }

def stCustomers : AgentState :=
  discover_success_state envCustomers "customers" "projects/p/specA" toolsCustomers

def stOrders : AgentState :=
  discover_success_state envOrders "orders" "projects/p/specB" toolsOrders

def dCustomers : Dict :=
  [("success", Value.bool true),
   ("message", Value.str "Created execution agent with 1 tools"),
   ("tools", Value.list [Value.str "get_customer_by_id"]),
   ("instruction", Value.str "Now use 'call_execution_agent' to execute API calls")]

def dOrders : Dict :=
  [("success", Value.bool true),
   ("message", Value.str "Created execution agent with 1 tools"),
   ("tools", Value.list [Value.str "get_order_by_id"]),
   ("instruction", Value.str "Now use 'call_execution_agent' to execute API calls")]

/-- C4: after two consecutive successful discoveries, the slot is exactly
what the second discovery produces from a clean slot — the whole outcome
(state and dict) is a function of the environment and query of the second call
alone, so nothing built by the first call remains reachable and
`call_execution_agent` only ever exercises the most recent capability set. -/
theorem replacement_total (env1 env2 : Env) (st st1 st2 : AgentState) (q1 q2 : String)
    (d1 d2 : Dict)
    (h1 : discover_and_create_agent env1 st q1 = .ok (st1, d1))
    (hs1 : dget d1 "success" = some (Value.bool true))
    (h2 : discover_and_create_agent env2 st1 q2 = .ok (st2, d2))
    (hs2 : dget d2 "success" = some (Value.bool true)) :
    discover_and_create_agent env2 emptySlot q2 = .ok (st2, d2) ∧
    ∃ loc2 ts2,
      search_api_hub env2 q2 = some loc2 ∧
      env2.getTools = .ok ts2 ∧
      st2 = discover_success_state env2 q2 loc2 ts2 := by
  have hsome := discover_success_agent_isSome env1 st q1 st1 d1 h1 hs1
  refine ⟨?_, discover_success_eq env2 st1 q2 st2 d2 h2 hs2⟩
  rw [← discover_eq_discover_emptySlot env2 st1 q2 hsome]
  exact h2

theorem replacement_total_witness :
    discover_and_create_agent envOrders emptySlot "orders" = .ok (stOrders, dOrders) ∧
    ∃ loc2 ts2,
      search_api_hub envOrders "orders" = some loc2 ∧
      envOrders.getTools = .ok ts2 ∧
      stOrders = discover_success_state envOrders "orders" loc2 ts2 :=
  replacement_total envCustomers envOrders emptySlot stCustomers stOrders
    "customers" "orders" dCustomers dOrders rfl rfl rfl rfl

/-- C9: on every successful discovery, the toolset held by the agent carries the
enumerated tools with the static API-key credential attached to exactly
those that declare an auth requirement when a credential is configured,
and the tools unmodified when none is; attachment is already in the
installed state (materialization time), and `call_execution_agent` never
mutates the slot (so never attaches at call time). -/
theorem auth_attached_at_materialization (env : Env) (st : AgentState) (q : String)
    (st' : AgentState) (d : Dict)
    (hok : discover_and_create_agent env st q = .ok (st', d))
    (hs : dget d "success" = some (Value.bool true)) :
    ∃ (a : LlmAgent) (tset : APIHubToolset) (ts : List Tool),
      st'.execution_agent = some a ∧
      a.toolsets = [tset] ∧
      env.getTools = .ok ts ∧
      (get_apikey_credential env.cfg ≠ "" →
        tset.tools = ts.map (fun t =>
          if t.declares_auth then
            { t with auth_credential := some { auth_type := "API_KEY",
                                               api_key := get_apikey_credential env.cfg } }
          else t)) ∧
      (get_apikey_credential env.cfg = "" → tset.tools = ts) ∧
      (∀ (env2 : Env) (req : String), (call_execution_agent env2 st' req).1 = st') := by
  obtain ⟨loc, ts, hsearch, hgt, hst⟩ := discover_success_eq env st q st' d hok hs
  subst hst
  refine ⟨_, _, ts, rfl, rfl, hgt, ?_, ?_, ?_⟩
  · intro hkey
    have hcred : get_auth_credential env.cfg =
        some { auth_type := "API_KEY", api_key := get_apikey_credential env.cfg } := by
      unfold get_auth_credential
      simp [hkey]
    show (match get_auth_credential env.cfg with
          | some c => ts.map (fun (t : Tool) => if t.declares_auth then t.configure_auth_credential c else t)
          | none => ts) = _
    rw [hcred]
    rfl
  · intro hkey0
    have hcred : get_auth_credential env.cfg = none := by
      unfold get_auth_credential
      simp [hkey0]
    show (match get_auth_credential env.cfg with
          | some c => ts.map (fun (t : Tool) => if t.declares_auth then t.configure_auth_credential c else t)
          | none => ts) = ts
    rw [hcred]
  · exact fun env2 req => call_execution_agent_fst env2 _ req

def toolsAuthMix : List Tool :=
  [{ name := "get_customer_by_id", auth_scheme := some "apiKey" },
   { name := "list_customers", auth_scheme := none }]

def envAuth : Env :=
  { cfg := { apihub_search_url := "u", apikey_credential := "secret", apihub_access_token := "t" }
    searchTransport := .ok [some "projects/p/specC"], toolsetCtor := .ctorOk
    getTools := .ok toolsAuthMix, run := .events [] }

def stAuth : AgentState :=
  discover_success_state envAuth "customers" "projects/p/specC" toolsAuthMix

def dAuth : Dict :=
  [("success", Value.bool true),
   ("message", Value.str "Created execution agent with 2 tools"),
   ("tools", Value.list [Value.str "get_customer_by_id", Value.str "list_customers"]),
   ("instruction", Value.str "Now use 'call_execution_agent' to execute API calls")]

theorem auth_attached_at_materialization_witness :
    ∃ (a : LlmAgent) (tset : APIHubToolset) (ts : List Tool),
      stAuth.execution_agent = some a ∧
      a.toolsets = [tset] ∧
      envAuth.getTools = .ok ts ∧
      (get_apikey_credential envAuth.cfg ≠ "" →
        tset.tools = ts.map (fun t =>
          if t.declares_auth then
            { t with auth_credential := some { auth_type := "API_KEY",
                                               api_key := get_apikey_credential envAuth.cfg } }
          else t)) ∧
      (get_apikey_credential envAuth.cfg = "" → tset.tools = ts) ∧
      (∀ (env2 : Env) (req : String), (call_execution_agent env2 stAuth req).1 = stAuth) :=
  auth_attached_at_materialization envAuth emptySlot "customers" stAuth dAuth rfl rfl

end Talk2Api
